import Mathlib

set_option maxRecDepth 100000

/-!
Shallow embedding of the eBPF span-context lifecycle engine of
opentelemetry-go-instrumentation: the span tracking table
(internal/include/go_context.h), the W3C span-context codec
(internal/include/trace/span_context.h, internal/include/utils.h),
the sampling engine (internal/include/trace/sampling.h), the span start
protocol (internal/include/trace/start_span.h), span output
(internal/include/trace/span_output.h) and traceparent header extraction
(include/span_context.h and the http server probe).

Machine integers are modelled as Nat with explicit truncation where the
C code stores into a fixed-width field; pointers and correlation keys are
modelled as Nat (0 plays the role of NULL); BPF maps are modelled as
functions into Option; randomness and fallible map updates are modelled
as explicit parameters.
-/

/-- Span context, from struct span_context in internal/include/trace/span_context.h.
TraceID holds 16 bytes, SpanID 8 bytes, TraceFlags one byte; the 7 padding
bytes carry no information and are omitted. -/
structure span_context where
  TraceID : List Nat
  SpanID : List Nat
  TraceFlags : Nat
deriving DecidableEq

/-- The pair of pinned BPF hash maps of internal/include/go_context.h:
go_context_to_sc (forward: context.Context data pointer to span context) and
tracked_spans_by_sc (reverse: span context to context.Context data pointer). -/
structure track_state where
  go_context_to_sc : Nat → Option span_context
  tracked_spans_by_sc : span_context → Option Nat

/-- start_tracking_span from internal/include/go_context.h. The two
bpf_map_update_elem calls can fail (a fixed-capacity table refuses the
insert); fwdOk and revOk are the success of the forward and reverse update
in program order. On a failed forward update the function returns before
touching the reverse map. -/
def start_tracking_span (fwdOk revOk : Bool) (contextContext : Nat)
    (sc : span_context) (st : track_state) : track_state :=
  if fwdOk then
    let st1 : track_state :=
      { st with go_context_to_sc :=
          fun k => if k = contextContext then some sc else st.go_context_to_sc k }
    if revOk then
      { st1 with tracked_spans_by_sc :=
          fun s => if s = sc then some contextContext else st1.tracked_spans_by_sc s }
    else st1
  else st

/-- stop_tracking_span from internal/include/go_context.h. sc and psc are
the (possibly NULL) span-context pointers; the value stored in
tracked_spans_by_sc for a span context is the context.Context data pointer
backing it, and the function compares the backing values stored for sc and
psc before either reverting the forward entry to psc or deleting it. -/
def stop_tracking_span (sc psc : Option span_context) (st : track_state) : track_state :=
  match sc with
  | none => st
  | some s =>
    match st.tracked_spans_by_sc s with
    | none => st
    | some ctxVal =>
      let parentCtx : Option Nat :=
        match psc with
        | none => none
        | some p => st.tracked_spans_by_sc p
      let st1 : track_state :=
        match parentCtx with
        | none =>
          { st with go_context_to_sc :=
              fun k => if k = ctxVal then none else st.go_context_to_sc k }
        | some parentVal =>
          if ctxVal ≠ parentVal then
            { st with go_context_to_sc :=
                fun k => if k = ctxVal then none else st.go_context_to_sc k }
          else
            { st with go_context_to_sc :=
                fun k => if k = ctxVal then psc else st.go_context_to_sc k }
      { st1 with tracked_spans_by_sc :=
          fun s2 => if s2 = s then none else st1.tracked_spans_by_sc s2 }

/-- MAX_DISTANCE from internal/include/go_context.h. -/
def MAX_DISTANCE : Nat := 100

/-- One step up the context.Context parent chain: the code reads the data
pointer of the parent interface at offset 8 of the current context object;
mem models readable process memory as a word-read at a given address. -/
def chainStep (mem : Nat → Nat) (data : Nat) : Nat := mem (data + 8)

/-- Address reached after k parent-chain steps from the starting data pointer. -/
def chainAt (mem : Nat → Nat) (data : Nat) : Nat → Nat
  | 0 => data
  | k + 1 => chainStep mem (chainAt mem data k)

/-- The bounded loop body of get_parent_go_context, with explicit fuel. -/
def go_context_walk (mem : Nat → Nat) (inMap : Nat → Bool) : Nat → Nat → Option Nat
  | 0, _ => none
  | fuel + 1, data =>
    if data = 0 then none
    else if inMap data then some data
    else go_context_walk mem inMap fuel (chainStep mem data)

/-- get_parent_go_context from internal/include/go_context.h: walk the
parent chain for at most MAX_DISTANCE iterations, returning the first
visited address present in the map, NULL (none) otherwise. -/
def get_parent_go_context (mem : Nat → Nat) (inMap : Nat → Bool) (data : Nat) : Option Nat :=
  go_context_walk mem inMap MAX_DISTANCE data

/-- The hex character table of internal/include/utils.h, as ASCII codes. -/
def hexTable : List Nat := [48, 49, 50, 51, 52, 53, 54, 55, 56, 57, 97, 98, 99, 100, 101, 102]

/-- bytes_to_hex_string from internal/include/utils.h: each input byte
yields the table entry of its high nibble then of its low nibble. -/
def bytes_to_hex_string : List Nat → List Nat
  | [] => []
  | b :: bs =>
    hexTable.getD ((b >>> 4) &&& 0xF) 0 :: hexTable.getD (b &&& 0xF) 0 :: bytes_to_hex_string bs

/-- The nibble-decoding formula of hex_string_to_bytes in
internal/include/utils.h, with the u8 store truncation. -/
def nib (ch : Nat) : Nat := (((ch &&& 0xF) + (ch >>> 6)) ||| ((ch >>> 3) &&& 0x8)) % 256

/-- hex_string_to_bytes from internal/include/utils.h: consumes the input
two characters at a time, emitting (nib0 << 4) | nib1 per pair. -/
def hex_string_to_bytes : List Nat → List Nat
  | c0 :: c1 :: rest => (((nib c0) <<< 4) ||| nib c1) % 256 :: hex_string_to_bytes rest
  | _ => []

/-- span_context_to_w3c_string from internal/include/trace/span_context.h:
the 55-character string 00-<32 hex>-<16 hex>-<2 hex> as ASCII codes
(48 is the code of the 0 character, 45 of the dash). -/
def span_context_to_w3c_string (ctx : span_context) : List Nat :=
  [48, 48, 45] ++ bytes_to_hex_string ctx.TraceID ++ [45] ++
    bytes_to_hex_string ctx.SpanID ++ [45] ++ bytes_to_hex_string [ctx.TraceFlags]

/-- w3c_string_to_span_context from internal/include/trace/span_context.h:
reads 32 hex characters at offset 3 into TraceID, 16 at offset 36 into
SpanID and 2 at offset 53 into TraceFlags, with no validation. -/
def w3c_string_to_span_context (str : List Nat) : span_context :=
  { TraceID := hex_string_to_bytes ((str.drop 3).take 32)
    SpanID := hex_string_to_bytes ((str.drop 36).take 16)
    TraceFlags := (hex_string_to_bytes ((str.drop 53).take 2)).headD 0 }

/-- FLAG_SAMPLED from internal/include/trace/sampling.h. -/
def FLAG_SAMPLED : Nat := 1

/-- trace_flags_is_sampled from internal/include/trace/sampling.h. -/
def trace_flags_is_sampled (flags : Nat) : Bool :=
  (flags &&& FLAG_SAMPLED) == FLAG_SAMPLED

/-- is_sampled from internal/include/trace/sampling.h. -/
def is_sampled (ctx : span_context) : Bool :=
  trace_flags_is_sampled ctx.TraceFlags

/-- sampling_rate_denominator from internal/include/trace/sampling.h. -/
def sampling_rate_denominator : Nat := 2 ^ 32 - 1

/-- The u64 value memcpy-ed from bytes 8..15 of the trace id buffer on a
little-endian target: byte 8 is least significant. Each byte is a u8. -/
def trace_id_num_of (trace_id : List Nat) : Nat :=
  ((trace_id.drop 8).take 8).foldr (fun b acc => b % 256 + 256 * acc) 0

/-- The _traceIDRatioSampler_should_sample decision of
internal/include/trace/sampling.h; the upper-bound multiplication is a u64
multiplication, hence the explicit 2 ^ 64 truncation. -/
def traceIDRatioSampler_decide (sampling_rate_numerator : Nat) (trace_id : List Nat) : Bool :=
  if sampling_rate_numerator = 0 then false
  else if sampling_rate_numerator ≥ sampling_rate_denominator then true
  else
    let trace_id_num := trace_id_num_of trace_id
    let trace_id_upper_bound :=
      (((2 ^ 63) / sampling_rate_denominator) * sampling_rate_numerator) % 2 ^ 64
    decide ((trace_id_num >>> 1) < trace_id_upper_bound)

/-- struct parent_based_config from internal/include/trace/sampling.h. -/
structure parent_based_config where
  root : Nat
  remote_parent_sampled : Nat
  remote_parent_not_sampled : Nat
  local_parent_sampled : Nat
  local_parent_not_sampled : Nat

/-- struct sampling_config from internal/include/trace/sampling.h: the
sampler_type tag together with the union member that tag reads; tags
outside the declared enumeration are kept abstract in unknownKind. -/
inductive sampling_config where
  | alwaysOn : sampling_config
  | alwaysOff : sampling_config
  | ratioBased (sampling_rate_numerator : Nat) : sampling_config
  | parentBased (pb : parent_based_config) : sampling_config
  | unknownKind (tag : Nat) : sampling_config

/-- struct sampling_parameters from internal/include/trace/sampling.h. -/
structure sampling_parameters where
  psc : Option span_context
  trace_id : List Nat

/-- The sampler environment: the single entry of probe_active_sampler_map
(none when the map holds no entry) and the contents of samplers_config_map
indexed by sampler id. -/
structure sampler_env where
  active : Option Nat
  configs : Nat → Option sampling_config

/-- The base sampler id a parent-based sampler selects, from
parentBasedSampler_should_sample in internal/include/trace/sampling.h:
root when there is no parent, else the local-parent entry matching the
parent sampled flag (remote parents are not distinguished yet). -/
def parentBased_selected_id (pb : parent_based_config) (params : sampling_parameters) : Nat :=
  match params.psc with
  | none => pb.root
  | some psc =>
    if trace_flags_is_sampled psc.TraceFlags then pb.local_parent_sampled
    else pb.local_parent_not_sampled

/-- parentBasedSampler_should_sample from internal/include/trace/sampling.h:
missing base config and a parent-based base config both yield false; the
remaining kinds dispatch to the corresponding base sampler, default false. -/
def parentBasedSampler_should_sample (env : sampler_env) (pb : parent_based_config)
    (params : sampling_parameters) : Bool :=
  match env.configs (parentBased_selected_id pb params) with
  | none => false
  | some base_config =>
    match base_config with
    | .parentBased _ => false
    | .alwaysOn => true
    | .alwaysOff => false
    | .ratioBased num => traceIDRatioSampler_decide num params.trace_id
    | .unknownKind _ => false

/-- should_sample from internal/include/trace/sampling.h: missing active
sampler id, missing config and unknown kinds all yield false. -/
def should_sample (env : sampler_env) (params : sampling_parameters) : Bool :=
  match env.active with
  | none => false
  | some active_sampler_id =>
    match env.configs active_sampler_id with
    | none => false
    | some config =>
      match config with
      | .alwaysOn => true
      | .alwaysOff => false
      | .ratioBased num => traceIDRatioSampler_decide num params.trace_id
      | .parentBased pb => parentBasedSampler_should_sample env pb params
      | .unknownKind _ => false

/-- get_span_context_from_parent from internal/include/trace/span_context.h:
copy the parent trace id, generate a fresh span id; TraceFlags is left to
the caller (start_span sets it afterwards, the field starts zeroed). -/
def get_span_context_from_parent (parent : span_context) (freshSpanID : List Nat) : span_context :=
  { TraceID := parent.TraceID, SpanID := freshSpanID, TraceFlags := 0 }

/-- get_root_span_context from internal/include/trace/span_context.h:
generate fresh trace and span ids. -/
def get_root_span_context (freshTraceID freshSpanID : List Nat) : span_context :=
  { TraceID := freshTraceID, SpanID := freshSpanID, TraceFlags := 0 }

/-- start_span from internal/include/trace/start_span.h. When the custom
get_parent_span_context_fn pointer is non-NULL only it is consulted
(custom_resolver = some r, with r the parent it produced, none when the
function returned nonzero); when the pointer is NULL the tracking-table
lookup get_parent_span_context supplies table_parent. The fresh random
bytes of the generated ids are explicit inputs. Returns the new span
context and the parent span context found, if any. The TraceFlags store
is a u8 store, hence the explicit truncation. -/
def start_span (env : sampler_env) (custom_resolver : Option (Option span_context))
    (table_parent : Option span_context) (freshTraceID freshSpanID : List Nat) :
    span_context × Option span_context :=
  let found_parent : Option span_context :=
    match custom_resolver with
    | some r => r
    | none => table_parent
  match found_parent with
  | some psc =>
    let sc0 := get_span_context_from_parent psc freshSpanID
    let parent_trace_flags := psc.TraceFlags
    let sample := should_sample env { psc := some psc, trace_id := sc0.TraceID }
    ({ sc0 with TraceFlags :=
        (if sample then parent_trace_flags ||| FLAG_SAMPLED
         else parent_trace_flags &&& (255 - FLAG_SAMPLED)) % 256 },
     some psc)
  | none =>
    let sc0 := get_root_span_context freshTraceID freshSpanID
    let sample := should_sample env { psc := none, trace_id := sc0.TraceID }
    ({ sc0 with TraceFlags :=
        (if sample then 0 ||| FLAG_SAMPLED else 0 &&& (255 - FLAG_SAMPLED)) % 256 },
     none)

/-- output_span_event from internal/include/trace/span_output.h. The
span-context pointer argument is an Option; perf_output_result is the
return value bpf_perf_event_output would produce if called. The result
pairs the returned code with whether a record was written to the perf
event buffer. -/
def output_span_event (perf_output_result : Int) (sc : Option span_context) : Int × Bool :=
  let sampled : Bool :=
    match sc with
    | none => false
    | some c => is_sampled c
  if sampled then (perf_output_result, true) else (0, false)

/-- W3C_KEY_LENGTH from the span-context headers. -/
def W3C_KEY_LENGTH : Nat := 11

/-- W3C_VAL_LENGTH from the span-context headers. -/
def W3C_VAL_LENGTH : Nat := 55

/-- MAX_BUCKETS from include/span_context.h. -/
def MAX_BUCKETS : Nat := 8

/-- A Go string header (length field and the bytes behind the pointer). -/
structure go_string where
  len : Nat
  str : List Nat

/-- One slot of a Go map bucket as read by the header extraction code: the
tophash byte, the key string and the value string (for the Header map the
value read is the first string of the value slice). -/
structure header_entry where
  tophash : Nat
  key : go_string
  value : go_string

/-- ASCII codes of the lowercase traceparent literal. -/
def traceparent_lower : List Nat := [116, 114, 97, 99, 101, 112, 97, 114, 101, 110, 116]

/-- ASCII codes of the capitalized Traceparent literal. -/
def traceparent_upper : List Nat := [84, 114, 97, 99, 101, 112, 97, 114, 101, 110, 116]

/-- The per-slot scan of extract_context_from_req_headers: skip slots with
tophash 0, keys whose length differs from W3C_KEY_LENGTH, keys equal to
neither of the two accepted casings and values whose length differs from
W3C_VAL_LENGTH; on the first fully matching slot decode the 55-byte value. -/
def scan_header_entries : List header_entry → Option span_context
  | [] => none
  | e :: rest =>
    if e.tophash = 0 then scan_header_entries rest
    else if e.key.len ≠ W3C_KEY_LENGTH then scan_header_entries rest
    else if ¬(e.key.str.take W3C_KEY_LENGTH = traceparent_lower ∨
              e.key.str.take W3C_KEY_LENGTH = traceparent_upper) then scan_header_entries rest
    else if e.value.len ≠ W3C_VAL_LENGTH then scan_header_entries rest
    else some (w3c_string_to_span_context (e.value.str.take W3C_VAL_LENGTH))

/-- extract_context_from_req_headers from include/span_context.h (the same
scan as extract_context_from_req_headers_go_map in the http server probe):
iterate over at most MAX_BUCKETS buckets of 8 slots each, in order, and
return the first decoded match, none when every slot is skipped. -/
def extract_context_from_req_headers (buckets : List (List header_entry)) : Option span_context :=
  scan_header_entries ((buckets.take MAX_BUCKETS).flatMap (fun b => b.take 8))

/-- The Prop-level match condition of the header scan: the slot is
occupied, its key is exactly 11 bytes spelling traceparent or Traceparent
and its value is exactly 55 bytes. -/
def entry_matches (e : header_entry) : Prop :=
  e.tophash ≠ 0 ∧ e.key.len = 11 ∧
    (e.key.str.take 11 = traceparent_lower ∨ e.key.str.take 11 = traceparent_upper) ∧
    e.value.len = 55

instance (e : header_entry) : Decidable (entry_matches e) := by
  unfold entry_matches
  infer_instance

/-- ASCII code of a hexadecimal digit character, either case. -/
def is_ascii_hex_digit (c : Nat) : Prop :=
  (48 ≤ c ∧ c ≤ 57) ∨ (97 ≤ c ∧ c ≤ 102) ∨ (65 ≤ c ∧ c ≤ 70)

instance (c : Nat) : Decidable (is_ascii_hex_digit c) := by
  unfold is_ascii_hex_digit
  infer_instance

/-- Uppercase a lowercase hex letter code, leaving other codes unchanged. -/
def hex_upper_of (c : Nat) : Nat :=
  if 97 ≤ c ∧ c ≤ 102 then c - 32 else c

/-- Empty tracking table (both maps hold no entries). -/
def st_empty : track_state :=
  { go_context_to_sc := fun _ => none, tracked_spans_by_sc := fun _ => none }

/-- Sample span context used in concrete evaluations. -/
def spanA : span_context := { TraceID := [1], SpanID := [2], TraceFlags := 0 }

/-- Second sample span context. -/
def spanB : span_context := { TraceID := [3], SpanID := [4], TraceFlags := 0 }

/-- Third sample span context. -/
def spanC : span_context := { TraceID := [5], SpanID := [6], TraceFlags := 0 }

/-- The table after tracking spanA then spanB under the same key 7. -/
def s2W : track_state :=
  start_tracking_span true true 7 spanB (start_tracking_span true true 7 spanA st_empty)

/-- A full-size valid span context (16 trace id bytes, 8 span id bytes). -/
def sc_ex : span_context :=
  { TraceID := List.replicate 16 170, SpanID := List.replicate 8 187, TraceFlags := 1 }

/-- A header slot carrying a lowercase traceparent key and a 55-byte value. -/
def entry_good : header_entry :=
  { tophash := 5, key := { len := 11, str := traceparent_lower },
    value := { len := 55, str := span_context_to_w3c_string sc_ex } }

/-- A header slot whose key is the all-uppercase TRACEPARENT casing. -/
def entry_upper : header_entry :=
  { tophash := 5, key := { len := 11, str := [84, 82, 65, 67, 69, 80, 65, 82, 69, 78, 84] },
    value := { len := 55, str := span_context_to_w3c_string sc_ex } }

/-- Environment whose only sampler is always-on under every id. -/
def env_on : sampler_env := { active := some 0, configs := fun _ => some .alwaysOn }

/-- A parent-based config whose every base sampler id is 1. -/
def pb_ex : parent_based_config :=
  { root := 1, remote_parent_sampled := 1, remote_parent_not_sampled := 1,
    local_parent_sampled := 1, local_parent_not_sampled := 1 }

/-- Environment with no active sampler id configured. -/
def env_active_missing : sampler_env := { active := none, configs := fun _ => none }

/-- Environment whose active sampler id has no configuration. -/
def env_config_missing : sampler_env := { active := some 0, configs := fun _ => none }

/-- Environment whose active sampler has an out-of-range kind tag. -/
def env_unknown : sampler_env := { active := some 0, configs := fun _ => some (.unknownKind 9) }

/-- Environment with a parent-based sampler whose base id has no config. -/
def env_pb_base_missing : sampler_env :=
  { active := some 0, configs := fun i => if i = 0 then some (.parentBased pb_ex) else none }

/-- Environment with a parent-based sampler whose base is parent-based. -/
def env_pb_pb : sampler_env := { active := some 0, configs := fun _ => some (.parentBased pb_ex) }

/-- Sampling parameters with no parent and an all-zero trace id. -/
def params0 : sampling_parameters := { psc := none, trace_id := List.replicate 16 0 }

/-- Concrete process memory for the parent-chain walk: address 100 links
to 200 (its parent pointer lives at 108), everything else to NULL. -/
def walk_mem : Nat → Nat := fun d => if d = 108 then 200 else 0

/-- Concrete by-key membership test: only address 200 is tracked. -/
def walk_inMap : Nat → Bool := fun d => d == 200

/-- A parent span context with clear flags for start_span evaluations. -/
def psc_w : span_context :=
  { TraceID := List.replicate 16 9, SpanID := List.replicate 8 8, TraceFlags := 0 }

/-- Modelled from the spec: bpf_memicmp, whose definition is not under
src/ (only its call site in the http server probe is). Its name and the
accept condition at the call site, an application of the logical not to
its result where the local bpf_memcmp returns true on equality, fix it as
the case-insensitive comparator returning 0 on match: each of the first
size bytes of s1 must equal the corresponding byte of s2 or that byte
with the case bit flipped (xor 32); on the first mismatch the one-based
index is returned. This recursion carries the current index i and the
remaining count. -/
def bpf_memicmp_from (s1 s2 : List Nat) : Nat → Nat → Nat
  | _, 0 => 0
  | i, n + 1 =>
    if s1.getD i 0 ≠ s2.getD i 0 ∧ s1.getD i 0 ≠ (s2.getD i 0) ^^^ 32 then i + 1
    else bpf_memicmp_from s1 s2 (i + 1) n

/-- Modelled from the spec: bpf_memicmp entry point, comparing the first
size bytes of the two buffers case-insensitively, 0 meaning match. -/
def bpf_memicmp (s1 s2 : List Nat) (size : Nat) : Nat :=
  bpf_memicmp_from s1 s2 0 size

/-- ASCII codes of the lowercase key line prefix traceparent-colon-space. -/
def traceparent_colon : List Nat := traceparent_lower ++ [58, 32]

/-- uprobe_textproto_Reader_readContinuedLineSlice_Returns from the http
server probe (the raw-line pre-parse): for a line of length at least
W3C_KEY_LENGTH + W3C_VAL_LENGTH + 2 = 68 whose first 13 bytes match
traceparent-colon-space under bpf_memicmp, decode the 55 bytes following
the key into a span context and store it in http_server_context_headers
under the goroutine key; otherwise store nothing. The result is the value
stored, if any; len is the slice length parameter and buf its bytes. -/
def uprobe_textproto_readContinuedLineSlice (len : Nat) (buf : List Nat) : Option span_context :=
  if len ≥ W3C_KEY_LENGTH + W3C_VAL_LENGTH + 2 then
    let temp := buf.take (W3C_KEY_LENGTH + W3C_VAL_LENGTH + 2)
    if bpf_memicmp temp traceparent_colon (W3C_KEY_LENGTH + 2) = 0 then
      some (w3c_string_to_span_context (temp.drop (W3C_KEY_LENGTH + 2)))
    else none
  else none

/-- extract_context_from_req_headers_pre_parsed from the http server
probe: return the span context the textproto uprobe stored for the key in
http_server_context_headers, here modelled as the function headers_map. -/
def extract_context_from_req_headers_pre_parsed
    (headers_map : Nat → Option span_context) (key : Nat) : Option span_context :=
  headers_map key

/-- The extract_context_from_req_headers dispatcher of the http server
probe (lines 200..206): under swiss_maps_used it reads the pre-parsed map
filled by the textproto raw-line uprobe, otherwise it scans the Go map
buckets. -/
def extract_context_from_req_headers_dispatch (swiss_maps_used : Bool)
    (headers_map : Nat → Option span_context) (key : Nat)
    (buckets : List (List header_entry)) : Option span_context :=
  if swiss_maps_used then extract_context_from_req_headers_pre_parsed headers_map key
  else extract_context_from_req_headers buckets

/-- ASCII codes of the all-uppercase key line prefix TRACEPARENT-colon-space. -/
def traceparent_caps_colon : List Nat :=
  [84, 82, 65, 67, 69, 80, 65, 82, 69, 78, 84] ++ [58, 32]

/-- A raw header line whose value part is 56 bytes: the 55-byte encoding
of sc_ex followed by one extra byte. -/
def line_value_56 : List Nat :=
  traceparent_colon ++ span_context_to_w3c_string sc_ex ++ [48]

/-- A raw header line whose key casing is all-uppercase TRACEPARENT. -/
def line_caps : List Nat := traceparent_caps_colon ++ span_context_to_w3c_string sc_ex

/-- C10: start_tracking_span is not atomic over the map pair. With the
forward insert succeeding and the reverse insert failing, the forward
entry for the key is in place while the reverse map is untouched; with the
forward insert failing, nothing at all is written. -/
theorem start_tracking_span_not_atomic :
    ∀ (st : track_state) (k : Nat) (sc : span_context),
      (start_tracking_span true false k sc st).go_context_to_sc k = some sc ∧
      (start_tracking_span true false k sc st).tracked_spans_by_sc = st.tracked_spans_by_sc ∧
      (∀ r : Bool, start_tracking_span false r k sc st = st) := by
  intro st k sc
  refine ⟨?_, rfl, fun r => rfl⟩
  simp [start_tracking_span]

/-- C9: output_span_event writes a record to the perf event buffer exactly
when the span-context pointer is non-NULL and bit0 of its TraceFlags is
set; otherwise nothing is emitted and the returned code is 0. -/
theorem output_span_event_sampled_gate :
    ∀ (perf_output_result : Int) (sc : Option span_context),
      ((output_span_event perf_output_result sc).2 = true ↔
        ∃ c, sc = some c ∧ c.TraceFlags.testBit 0 = true) ∧
      ((output_span_event perf_output_result sc).2 = false →
        output_span_event perf_output_result sc = (0, false)) := by
  intro pr sc
  cases sc with
  | none => simp [output_span_event]
  | some c =>
    constructor
    · by_cases h : is_sampled c = true
      · have hb : c.TraceFlags.testBit 0 = true := by
          have := h
          simp only [is_sampled, trace_flags_is_sampled, FLAG_SAMPLED, beq_iff_eq,
            Nat.and_one_is_mod] at this
          simpa [Nat.testBit_zero] using this
        have hmod : c.TraceFlags % 2 = 1 := by simpa [Nat.testBit_zero] using hb
        simp [output_span_event, h, hb, hmod]
      · have hb : c.TraceFlags.testBit 0 = false := by
          have hm : ¬(c.TraceFlags &&& 1 = 1) := by
            intro hc
            exact h (by simp [is_sampled, trace_flags_is_sampled, FLAG_SAMPLED, hc])
          rw [Nat.and_one_is_mod] at hm
          simp only [Nat.testBit_zero, decide_eq_false_iff_not]
          omega
        have hmod : c.TraceFlags % 2 = 0 := by
          have := hb
          simp only [Nat.testBit_zero, decide_eq_false_iff_not] at this
          omega
        simp [output_span_event, h, hb, hmod]
    · intro h
      by_cases hs : is_sampled c = true
      · simp [output_span_event, hs] at h
      · simp [output_span_event, hs]

/-- Witness for C9 at concrete inputs: a sampled context is emitted, an
unsampled NULL pointer produces the zero result and no record. -/
theorem output_span_event_sampled_gate_witness :
    output_span_event 3 none = (0, false) ∧
    (output_span_event 3 (some sc_ex)).2 = true := by
  constructor
  · exact (output_span_event_sampled_gate 3 none).2 (by decide)
  · exact ((output_span_event_sampled_gate 3 (some sc_ex)).1).mpr ⟨sc_ex, rfl, by decide⟩

/-- C4: the ratio sampler never samples with numerator 0, always samples
with numerator at least the denominator constant 2^32 - 1, and otherwise
samples exactly when the high half of the trace id (bytes 8..15 as a
little-endian u64) shifted right by one is below
floor(2^63 / (2^32 - 1)) * numerator. -/
theorem traceIDRatioSampler_spec :
    ∀ (num : Nat) (trace_id : List Nat),
      (num = 0 → traceIDRatioSampler_decide num trace_id = false) ∧
      (num ≥ 2 ^ 32 - 1 → traceIDRatioSampler_decide num trace_id = true) ∧
      (0 < num → num < 2 ^ 32 - 1 →
        (traceIDRatioSampler_decide num trace_id = true ↔
          (trace_id_num_of trace_id) >>> 1 < ((2 ^ 63) / (2 ^ 32 - 1)) * num)) := by
  intro num trace_id
  have hpow : (2 : Nat) ^ 32 - 1 = 4294967295 := by norm_num
  refine ⟨?_, ?_, ?_⟩
  · intro h
    simp [traceIDRatioSampler_decide, h]
  · intro h
    rw [hpow] at h
    have hnz : num ≠ 0 := by omega
    have hge : num ≥ sampling_rate_denominator := by
      rw [sampling_rate_denominator, hpow]
      omega
    simp only [traceIDRatioSampler_decide]
    rw [if_neg hnz, if_pos hge]
  · intro hpos hlt
    rw [hpow] at hlt
    have hnz : num ≠ 0 := by omega
    have hge : ¬(num ≥ sampling_rate_denominator) := by
      rw [sampling_rate_denominator, hpow]
      omega
    have hdiv : (2 ^ 63) / sampling_rate_denominator = 2 ^ 31 := by
      rw [sampling_rate_denominator]
      norm_num
    have hsmall : ((2 ^ 63) / sampling_rate_denominator) * num < 2 ^ 64 := by
      rw [hdiv]
      have h1 : (2 : Nat) ^ 31 = 2147483648 := by norm_num
      have h2 : (2 : Nat) ^ 64 = 18446744073709551616 := by norm_num
      rw [h1, h2]
      omega
    simp only [traceIDRatioSampler_decide]
    rw [if_neg hnz, if_neg hge, Nat.mod_eq_of_lt hsmall, hdiv]
    rw [show ((2 : Nat) ^ 63) / (2 ^ 32 - 1) = 2 ^ 31 by norm_num]
    exact decide_eq_true_iff

/-- Witness for C4 at concrete inputs: numerator 0 rejects, a numerator at
the denominator accepts, and a small numerator decides by the bound. -/
theorem traceIDRatioSampler_spec_witness :
    traceIDRatioSampler_decide 0 (List.replicate 16 0) = false ∧
    traceIDRatioSampler_decide (2 ^ 32 - 1) (List.replicate 16 0) = true ∧
    (traceIDRatioSampler_decide 5 (List.replicate 16 0) = true ↔
      (trace_id_num_of (List.replicate 16 0)) >>> 1 < ((2 ^ 63) / (2 ^ 32 - 1)) * 5) := by
  refine ⟨?_, ?_, ?_⟩
  · exact (traceIDRatioSampler_spec 0 (List.replicate 16 0)).1 rfl
  · exact (traceIDRatioSampler_spec (2 ^ 32 - 1) (List.replicate 16 0)).2.1 (le_refl _)
  · exact (traceIDRatioSampler_spec 5 (List.replicate 16 0)).2.2 (by norm_num) (by norm_num)

/-- The nibble formula is invariant under uppercasing a hex digit. -/
theorem nib_hex_upper_eq : ∀ c : Nat, is_ascii_hex_digit c → nib (hex_upper_of c) = nib c := by
  have hbound : ∀ c : Nat, c < 103 → is_ascii_hex_digit c → nib (hex_upper_of c) = nib c := by
    decide
  intro c hc
  have hlt : c < 103 := by
    rcases hc with ⟨_, h⟩ | ⟨_, h⟩ | ⟨_, h⟩ <;> omega
  exact hbound c hlt hc

/-- Decoding is unchanged by uppercasing every hex digit of the input. -/
theorem hex_string_to_bytes_upper :
    ∀ s : List Nat, (∀ c ∈ s, is_ascii_hex_digit c) →
      hex_string_to_bytes (s.map hex_upper_of) = hex_string_to_bytes s
  | [] => fun _ => rfl
  | [c] => fun _ => rfl
  | c0 :: c1 :: rest => fun h => by
    have h0 := h c0 (by simp)
    have h1 := h c1 (by simp)
    have hr : ∀ c ∈ rest, is_ascii_hex_digit c := fun c hc => h c (by simp [hc])
    simp only [List.map_cons, hex_string_to_bytes]
    rw [nib_hex_upper_eq c0 h0, nib_hex_upper_eq c1 h1,
      hex_string_to_bytes_upper rest hr]

/-- C8: the nibble-decoding formula of hex_string_to_bytes maps the digit
characters to 0..9 and both letter cases to 10..15, and consequently a
hex string decodes to the same bytes as its other-case form. -/
theorem nib_decodes_both_cases :
    (∀ d, d < 10 → nib (48 + d) = d) ∧
    (∀ d, d < 6 → nib (97 + d) = 10 + d) ∧
    (∀ d, d < 6 → nib (65 + d) = 10 + d) ∧
    (∀ s : List Nat, (∀ c ∈ s, is_ascii_hex_digit c) →
      hex_string_to_bytes (s.map hex_upper_of) = hex_string_to_bytes s) := by
  refine ⟨by decide, by decide, by decide, hex_string_to_bytes_upper⟩

/-- Witness for C8 at a concrete string: decoding 09afAF uppercased agrees
with decoding it as written. -/
theorem nib_decodes_both_cases_witness :
    nib 48 = 0 ∧ nib 102 = 15 ∧ nib 70 = 15 ∧
    hex_string_to_bytes ([48, 57, 97, 102, 65, 70].map hex_upper_of) =
      hex_string_to_bytes [48, 57, 97, 102, 65, 70] := by
  refine ⟨nib_decodes_both_cases.1 0 (by norm_num), ?_, ?_, ?_⟩
  · exact nib_decodes_both_cases.2.1 5 (by norm_num)
  · exact nib_decodes_both_cases.2.2.1 5 (by norm_num)
  · exact nib_decodes_both_cases.2.2.2 [48, 57, 97, 102, 65, 70] (by decide)

/-- C6: should_sample returns false in every misconfiguration case: no
active sampler id, missing config for the active id, a config kind outside
the known sampler kinds, a parent-based sampler whose selected base id has
no config, and a parent-based sampler whose base is itself parent-based. -/
theorem should_sample_misconfig_not_sampled :
    ∀ (env : sampler_env) (params : sampling_parameters),
      (env.active = none → should_sample env params = false) ∧
      (∀ i, env.active = some i → env.configs i = none →
        should_sample env params = false) ∧
      (∀ i t, env.active = some i → env.configs i = some (.unknownKind t) →
        should_sample env params = false) ∧
      (∀ i pb, env.active = some i → env.configs i = some (.parentBased pb) →
        env.configs (parentBased_selected_id pb params) = none →
        should_sample env params = false) ∧
      (∀ i pb pb2, env.active = some i → env.configs i = some (.parentBased pb) →
        env.configs (parentBased_selected_id pb params) = some (.parentBased pb2) →
        should_sample env params = false) := by
  intro env params
  refine ⟨?_, ?_, ?_, ?_, ?_⟩
  · intro h
    simp [should_sample, h]
  · intro i hi hc
    simp [should_sample, hi, hc]
  · intro i t hi hc
    simp [should_sample, hi, hc]
  · intro i pb hi hc hbase
    simp [should_sample, hi, hc, parentBasedSampler_should_sample, hbase]
  · intro i pb pb2 hi hc hbase
    simp [should_sample, hi, hc, parentBasedSampler_should_sample, hbase]

/-- Witness for C6: each misconfiguration shape evaluated at a concrete
environment returns false. -/
theorem should_sample_misconfig_not_sampled_witness :
    should_sample env_active_missing params0 = false ∧
    should_sample env_config_missing params0 = false ∧
    should_sample env_unknown params0 = false ∧
    should_sample env_pb_base_missing params0 = false ∧
    should_sample env_pb_pb params0 = false := by
  refine ⟨?_, ?_, ?_, ?_, ?_⟩
  · exact (should_sample_misconfig_not_sampled env_active_missing params0).1 rfl
  · exact (should_sample_misconfig_not_sampled env_config_missing params0).2.1 0 rfl rfl
  · exact (should_sample_misconfig_not_sampled env_unknown params0).2.2.1 0 9 rfl rfl
  · exact (should_sample_misconfig_not_sampled env_pb_base_missing params0).2.2.2.1 0 pb_ex
      rfl rfl rfl
  · exact (should_sample_misconfig_not_sampled env_pb_pb params0).2.2.2.2 0 pb_ex pb_ex
      rfl rfl rfl

/-- After tracking A then B under the same key, the reverse map sends B to
that key. -/
theorem s2_by_span_sc :
    ∀ (st : track_state) (k : Nat) (A B : span_context),
      (start_tracking_span true true k B
        (start_tracking_span true true k A st)).tracked_spans_by_sc B = some k := by
  intro st k A B
  simp [start_tracking_span]

/-- After tracking A then B under the same key, the reverse map sends A to
that key as well (directly when A = B, from the first insert otherwise). -/
theorem s2_by_span_parent :
    ∀ (st : track_state) (k : Nat) (A B : span_context),
      (start_tracking_span true true k B
        (start_tracking_span true true k A st)).tracked_spans_by_sc A = some k := by
  intro st k A B
  by_cases hAB : A = B
  · subst hAB
    simp [start_tracking_span]
  · simp [start_tracking_span, hAB]

/-- C1: after start_tracking(k, A); start_tracking(k, B), stopping B with
parent A reverts the forward entry of k to A, because A and B are backed
by the same stored key; stopping B with a parent C whose backing value
differs from k or is untracked removes the forward entry of k entirely;
in both cases the reverse entry of B is removed. -/
theorem stop_tracking_span_nested :
    ∀ (st : track_state) (k : Nat) (A B C : span_context),
      ((stop_tracking_span (some B) (some A)
          (start_tracking_span true true k B
            (start_tracking_span true true k A st))).go_context_to_sc k = some A ∧
       (stop_tracking_span (some B) (some A)
          (start_tracking_span true true k B
            (start_tracking_span true true k A st))).tracked_spans_by_sc B = none) ∧
      ((∀ k2, (start_tracking_span true true k B
          (start_tracking_span true true k A st)).tracked_spans_by_sc C = some k2 → k2 ≠ k) →
       (stop_tracking_span (some B) (some C)
          (start_tracking_span true true k B
            (start_tracking_span true true k A st))).go_context_to_sc k = none ∧
       (stop_tracking_span (some B) (some C)
          (start_tracking_span true true k B
            (start_tracking_span true true k A st))).tracked_spans_by_sc B = none) := by
  intro st k A B C
  have hB := s2_by_span_sc st k A B
  have hA := s2_by_span_parent st k A B
  constructor
  · rw [stop_tracking_span]
    simp only [hB, hA]
    constructor
    · simp
    · simp
  · intro hC
    rw [stop_tracking_span]
    simp only [hB]
    rcases h2 : (start_tracking_span true true k B
        (start_tracking_span true true k A st)).tracked_spans_by_sc C with _ | k2
    · simp
    · have hk2 : k2 ≠ k := hC k2 h2
      simp [hk2, Ne.symm hk2]

/-- Witness for C1 at a concrete table: key 7 tracked for spanA then
spanB; stopping spanB with parent spanA restores spanA, stopping with the
untracked spanC removes the entry; the reverse entry of spanB goes away. -/
theorem stop_tracking_span_nested_witness :
    ((stop_tracking_span (some spanB) (some spanA) s2W).go_context_to_sc 7 = some spanA ∧
     (stop_tracking_span (some spanB) (some spanA) s2W).tracked_spans_by_sc spanB = none) ∧
    ((stop_tracking_span (some spanB) (some spanC) s2W).go_context_to_sc 7 = none ∧
     (stop_tracking_span (some spanB) (some spanC) s2W).tracked_spans_by_sc spanB = none) := by
  have h := stop_tracking_span_nested st_empty 7 spanA spanB spanC
  have hCnone : (start_tracking_span true true 7 spanB
      (start_tracking_span true true 7 spanA st_empty)).tracked_spans_by_sc spanC = none := by
    decide
  refine ⟨h.1, h.2 ?_⟩
  intro k2 hk2
  rw [hCnone] at hk2
  cases hk2

/-- C2: start_span gives the child the parent trace id, a fresh span id
and the parent flags with the sampled bit set or cleared by the sampling
decision when a parent is resolved (by the custom resolver when present,
else the tracking-table lookup); with no parent it generates both ids
fresh and the flags are zero apart from the sampled bit. -/
theorem start_span_postcondition :
    ∀ (env : sampler_env) (custom_resolver : Option (Option span_context))
      (table_parent : Option span_context) (freshTraceID freshSpanID : List Nat),
      (∀ psc : span_context,
        (match custom_resolver with
         | some r => r
         | none => table_parent) = some psc →
        psc.TraceFlags < 256 →
        (start_span env custom_resolver table_parent freshTraceID freshSpanID).2 = some psc ∧
        (start_span env custom_resolver table_parent freshTraceID freshSpanID).1.TraceID =
          psc.TraceID ∧
        (start_span env custom_resolver table_parent freshTraceID freshSpanID).1.SpanID =
          freshSpanID ∧
        (start_span env custom_resolver table_parent freshTraceID freshSpanID).1.TraceFlags =
          (if should_sample env { psc := some psc, trace_id := psc.TraceID }
           then psc.TraceFlags ||| 1
           else psc.TraceFlags &&& 254) ∧
        ((start_span env custom_resolver table_parent freshTraceID freshSpanID).1.TraceFlags.testBit 0 =
          should_sample env { psc := some psc, trace_id := psc.TraceID })) ∧
      ((match custom_resolver with
        | some r => r
        | none => table_parent) = none →
        (start_span env custom_resolver table_parent freshTraceID freshSpanID).2 = none ∧
        (start_span env custom_resolver table_parent freshTraceID freshSpanID).1.TraceID =
          freshTraceID ∧
        (start_span env custom_resolver table_parent freshTraceID freshSpanID).1.SpanID =
          freshSpanID ∧
        (start_span env custom_resolver table_parent freshTraceID freshSpanID).1.TraceFlags =
          (if should_sample env { psc := none, trace_id := freshTraceID } then 1 else 0) ∧
        ((start_span env custom_resolver table_parent freshTraceID freshSpanID).1.TraceFlags.testBit 0 =
          should_sample env { psc := none, trace_id := freshTraceID })) := by
  intro env custom_resolver table_parent freshTraceID freshSpanID
  constructor
  · intro psc hfound hflags
    have hor : psc.TraceFlags ||| 1 < 256 :=
      Nat.or_lt_two_pow (n := 8) hflags (by norm_num)
    have hand : psc.TraceFlags &&& 254 < 256 :=
      Nat.lt_of_le_of_lt Nat.and_le_left hflags
    rw [start_span.eq_def, hfound]
    simp only [get_span_context_from_parent, FLAG_SAMPLED]
    by_cases hs : should_sample env { psc := some psc, trace_id := psc.TraceID } = true
    · refine ⟨by trivial, by trivial, by trivial, ?_, ?_⟩
      · simp [hs, Nat.mod_eq_of_lt hor]
      · simp [hs, Nat.mod_eq_of_lt hor, Nat.testBit_or]
    · have hs' : should_sample env { psc := some psc, trace_id := psc.TraceID } = false :=
        Bool.not_eq_true _ ▸ (by simpa using hs)
      refine ⟨by trivial, by trivial, by trivial, ?_, ?_⟩
      · simp [hs', Nat.mod_eq_of_lt hand]
      · simp [hs', Nat.mod_eq_of_lt hand, Nat.testBit_and]
  · intro hfound
    rw [start_span.eq_def, hfound]
    simp only [get_root_span_context, FLAG_SAMPLED]
    by_cases hs : should_sample env { psc := none, trace_id := freshTraceID } = true
    · refine ⟨by trivial, by trivial, by trivial, by simp [hs], by simp [hs]⟩
    · have hs' : should_sample env { psc := none, trace_id := freshTraceID } = false :=
        Bool.not_eq_true _ ▸ (by simpa using hs)
      refine ⟨by trivial, by trivial, by trivial, by simp [hs'], by simp [hs']⟩

/-- Witness for C2: with an always-on sampler, a resolved parent gives the
child the parent trace id, and no parent gives the fresh trace id. -/
theorem start_span_postcondition_witness :
    (start_span env_on (some (some psc_w)) none (List.replicate 16 1)
      (List.replicate 8 2)).1.TraceID = psc_w.TraceID ∧
    (start_span env_on none none (List.replicate 16 1)
      (List.replicate 8 2)).1.TraceID = List.replicate 16 1 := by
  constructor
  · exact ((start_span_postcondition env_on (some (some psc_w)) none (List.replicate 16 1)
      (List.replicate 8 2)).1 psc_w rfl (by decide)).2.1
  · exact ((start_span_postcondition env_on none none (List.replicate 16 1)
      (List.replicate 8 2)).2 rfl).2.1

/-- The hex encoding of n bytes is 2n characters long. -/
theorem bytes_to_hex_string_length :
    ∀ bs : List Nat, (bytes_to_hex_string bs).length = 2 * bs.length := by
  intro bs
  induction bs with
  | nil => rfl
  | cons b bs ih =>
    simp [bytes_to_hex_string, ih]
    omega

/-- The nibble formula inverts the encoding table on every byte value. -/
theorem hex_pair_round :
    ∀ b : Nat, b < 256 →
      (((nib (hexTable.getD ((b >>> 4) &&& 0xF) 0)) <<< 4) |||
        nib (hexTable.getD (b &&& 0xF) 0)) % 256 = b := by
  decide

/-- Decoding inverts encoding on byte lists whose entries are below 256. -/
theorem hex_string_to_bytes_round :
    ∀ bs : List Nat, (∀ b ∈ bs, b < 256) →
      hex_string_to_bytes (bytes_to_hex_string bs) = bs := by
  intro bs
  induction bs with
  | nil => intro _; rfl
  | cons b bs ih =>
    intro h
    have hb : b < 256 := h b (by simp)
    have hr : ∀ x ∈ bs, x < 256 := fun x hx => h x (by simp [hx])
    simp only [bytes_to_hex_string, hex_string_to_bytes]
    rw [hex_pair_round b hb, ih hr]

/-- C3: decoding the 55-character string produced by
span_context_to_w3c_string returns the original span context, for every
context whose TraceID is 16 bytes, SpanID 8 bytes and TraceFlags a byte. -/
theorem w3c_string_round_trip :
    ∀ sc : span_context,
      sc.TraceID.length = 16 → (∀ b ∈ sc.TraceID, b < 256) →
      sc.SpanID.length = 8 → (∀ b ∈ sc.SpanID, b < 256) →
      sc.TraceFlags < 256 →
      w3c_string_to_span_context (span_context_to_w3c_string sc) = sc := by
  rintro ⟨t, s, f⟩ hlt hbt hls hbs hbf
  simp only at hlt hbt hls hbs hbf
  have hLT : (bytes_to_hex_string t).length = 32 := by
    rw [bytes_to_hex_string_length, hlt]
  have hLS : (bytes_to_hex_string s).length = 16 := by
    rw [bytes_to_hex_string_length, hls]
  have hE : span_context_to_w3c_string ⟨t, s, f⟩ =
      48 :: 48 :: 45 :: (bytes_to_hex_string t ++
        (45 :: (bytes_to_hex_string s ++ (45 :: bytes_to_hex_string [f])))) := by
    simp [span_context_to_w3c_string]
  have hdrop3 : (span_context_to_w3c_string ⟨t, s, f⟩).drop 3 =
      bytes_to_hex_string t ++ (45 :: (bytes_to_hex_string s ++ (45 :: bytes_to_hex_string [f]))) := by
    rw [hE]
    rfl
  have htrace : ((span_context_to_w3c_string ⟨t, s, f⟩).drop 3).take 32 = bytes_to_hex_string t := by
    rw [hdrop3]
    exact List.take_left' hLT
  have hdrop36 : (span_context_to_w3c_string ⟨t, s, f⟩).drop 36 =
      bytes_to_hex_string s ++ (45 :: bytes_to_hex_string [f]) := by
    have h1 : ((span_context_to_w3c_string ⟨t, s, f⟩).drop 3).drop 33 =
        (span_context_to_w3c_string ⟨t, s, f⟩).drop 36 := by
      rw [List.drop_drop]
    rw [← h1, hdrop3]
    have h2 : (bytes_to_hex_string t ++
        (45 :: (bytes_to_hex_string s ++ (45 :: bytes_to_hex_string [f])))).drop 32 =
        45 :: (bytes_to_hex_string s ++ (45 :: bytes_to_hex_string [f])) :=
      List.drop_left' hLT
    have h3 : ((bytes_to_hex_string t ++
        (45 :: (bytes_to_hex_string s ++ (45 :: bytes_to_hex_string [f])))).drop 32).drop 1 =
        (bytes_to_hex_string t ++
        (45 :: (bytes_to_hex_string s ++ (45 :: bytes_to_hex_string [f])))).drop 33 := by
      rw [List.drop_drop]
    rw [← h3, h2]
    rfl
  have hspan : ((span_context_to_w3c_string ⟨t, s, f⟩).drop 36).take 16 = bytes_to_hex_string s := by
    rw [hdrop36]
    exact List.take_left' hLS
  have hdrop53 : (span_context_to_w3c_string ⟨t, s, f⟩).drop 53 = bytes_to_hex_string [f] := by
    have h1 : ((span_context_to_w3c_string ⟨t, s, f⟩).drop 36).drop 17 =
        (span_context_to_w3c_string ⟨t, s, f⟩).drop 53 := by
      rw [List.drop_drop]
    rw [← h1, hdrop36]
    have h2 : (bytes_to_hex_string s ++ (45 :: bytes_to_hex_string [f])).drop 16 =
        45 :: bytes_to_hex_string [f] :=
      List.drop_left' hLS
    have h3 : ((bytes_to_hex_string s ++ (45 :: bytes_to_hex_string [f])).drop 16).drop 1 =
        (bytes_to_hex_string s ++ (45 :: bytes_to_hex_string [f])).drop 17 := by
      rw [List.drop_drop]
    rw [← h3, h2]
    rfl
  have hflags : ((span_context_to_w3c_string ⟨t, s, f⟩).drop 53).take 2 = bytes_to_hex_string [f] := by
    rw [hdrop53]
    have : (bytes_to_hex_string [f]).length = 2 := by
      rw [bytes_to_hex_string_length]
      rfl
    rw [← this, List.take_length]
  have hfr : hex_string_to_bytes (bytes_to_hex_string [f]) = [f] :=
    hex_string_to_bytes_round [f] (by simpa using hbf)
  simp only [w3c_string_to_span_context, htrace, hspan, hflags,
    hex_string_to_bytes_round t hbt, hex_string_to_bytes_round s hbs, hfr]
  rfl

/-- Witness for C3 on a concrete full-size span context. -/
theorem w3c_string_round_trip_witness :
    w3c_string_to_span_context (span_context_to_w3c_string sc_ex) = sc_ex :=
  w3c_string_round_trip sc_ex (by decide) (by decide) (by decide) (by decide) (by decide)

/-- A successful scan exits at a slot passing every check, returning the
decoded 55-byte value. -/
theorem scan_header_entries_some :
    ∀ (l : List header_entry) (sc : span_context),
      scan_header_entries l = some sc →
      ∃ e ∈ l, entry_matches e ∧
        sc = w3c_string_to_span_context (e.value.str.take 55) := by
  intro l
  induction l with
  | nil => intro sc h; cases h
  | cons e rest ih =>
    intro sc h
    by_cases h1 : e.tophash = 0
    · rw [scan_header_entries, if_pos h1] at h
      obtain ⟨e2, he2, hm, hd⟩ := ih sc h
      exact ⟨e2, by simp [he2], hm, hd⟩
    · by_cases h2 : e.key.len ≠ W3C_KEY_LENGTH
      · rw [scan_header_entries, if_neg h1, if_pos h2] at h
        obtain ⟨e2, he2, hm, hd⟩ := ih sc h
        exact ⟨e2, by simp [he2], hm, hd⟩
      · by_cases h3 : ¬(e.key.str.take W3C_KEY_LENGTH = traceparent_lower ∨
            e.key.str.take W3C_KEY_LENGTH = traceparent_upper)
        · rw [scan_header_entries, if_neg h1, if_neg h2, if_pos h3] at h
          obtain ⟨e2, he2, hm, hd⟩ := ih sc h
          exact ⟨e2, by simp [he2], hm, hd⟩
        · by_cases h4 : e.value.len ≠ W3C_VAL_LENGTH
          · rw [scan_header_entries, if_neg h1, if_neg h2, if_neg h3, if_pos h4] at h
            obtain ⟨e2, he2, hm, hd⟩ := ih sc h
            exact ⟨e2, by simp [he2], hm, hd⟩
          · rw [scan_header_entries, if_neg h1, if_neg h2, if_neg h3, if_neg h4] at h
            refine ⟨e, by simp, ?_, ?_⟩
            · refine ⟨h1, ?_, ?_, ?_⟩
              · simpa [W3C_KEY_LENGTH] using h2
              · simpa [W3C_KEY_LENGTH] using not_not.mp h3
              · simpa [W3C_VAL_LENGTH] using h4
            · injection h with h
              rw [← h]
              rfl
  
/-- When every slot fails one of the checks the scan returns none. -/
theorem scan_header_entries_none :
    ∀ l : List header_entry, (∀ e ∈ l, ¬ entry_matches e) →
      scan_header_entries l = none := by
  intro l
  induction l with
  | nil => intro _; rfl
  | cons e rest ih =>
    intro h
    have he : ¬ entry_matches e := h e (by simp)
    have hrest : scan_header_entries rest = none :=
      ih (fun x hx => h x (by simp [hx]))
    by_cases h1 : e.tophash = 0
    · rw [scan_header_entries, if_pos h1]
      exact hrest
    · by_cases h2 : e.key.len ≠ W3C_KEY_LENGTH
      · rw [scan_header_entries, if_neg h1, if_pos h2]
        exact hrest
      · by_cases h3 : ¬(e.key.str.take W3C_KEY_LENGTH = traceparent_lower ∨
            e.key.str.take W3C_KEY_LENGTH = traceparent_upper)
        · rw [scan_header_entries, if_neg h1, if_neg h2, if_pos h3]
          exact hrest
        · by_cases h4 : e.value.len ≠ W3C_VAL_LENGTH
          · rw [scan_header_entries, if_neg h1, if_neg h2, if_neg h3, if_pos h4]
            exact hrest
          · exfalso
            apply he
            refine ⟨h1, ?_, ?_, ?_⟩
            · simpa [W3C_KEY_LENGTH] using h2
            · simpa [W3C_KEY_LENGTH] using not_not.mp h3
            · simpa [W3C_VAL_LENGTH] using h4

/-- C5 counterexample: the textproto raw-line pre-parse path cited by the
claim accepts a line whose value part is 56 bytes, decoding its first 55
bytes, and accepts the all-uppercase TRACEPARENT key casing; through the
swiss-maps branch of the extraction dispatcher these decoded contexts are
returned by header extraction, contradicting the exactly-55-bytes,
exactly-two-casings and no-case-insensitive-match checks of the claim. -/
theorem extract_textproto_counterexample :
    uprobe_textproto_readContinuedLineSlice 69 line_value_56 = some sc_ex ∧
    uprobe_textproto_readContinuedLineSlice 68 line_caps = some sc_ex ∧
    extract_context_from_req_headers_dispatch true
      (fun k => if k = 1 then uprobe_textproto_readContinuedLineSlice 69 line_value_56 else none)
      1 [] = some sc_ex := by
  refine ⟨by decide, by decide, by decide⟩

/-- C5 amended: the bucket-scan extractors return a span context only for
a slot whose key is exactly 11 bytes spelling traceparent or Traceparent
and whose value is exactly 55 bytes, decoded by w3c_string_to_span_context,
returning none when every slot fails a check; the textproto raw-line
pre-parse accepts exactly the lines of length at least 68 whose first 13
bytes match traceparent-colon-space under the case-insensitive
bpf_memicmp, decoding the 55 bytes after the key whatever the value
length; the extraction dispatcher returns the pre-parsed entry under
swiss maps and the bucket scan result otherwise. -/
theorem extract_context_from_req_headers_amended :
    (∀ (buckets : List (List header_entry)) (sc : span_context),
      (extract_context_from_req_headers buckets = some sc →
        ∃ e ∈ (buckets.take 8).flatMap (fun b => b.take 8), entry_matches e ∧
          sc = w3c_string_to_span_context (e.value.str.take 55)) ∧
      ((∀ e ∈ (buckets.take 8).flatMap (fun b => b.take 8), ¬ entry_matches e) →
        extract_context_from_req_headers buckets = none)) ∧
    (∀ (len : Nat) (buf : List Nat) (sc : span_context),
      uprobe_textproto_readContinuedLineSlice len buf = some sc ↔
        (len ≥ W3C_KEY_LENGTH + W3C_VAL_LENGTH + 2 ∧
         bpf_memicmp (buf.take (W3C_KEY_LENGTH + W3C_VAL_LENGTH + 2)) traceparent_colon
           (W3C_KEY_LENGTH + 2) = 0 ∧
         sc = w3c_string_to_span_context
           ((buf.take (W3C_KEY_LENGTH + W3C_VAL_LENGTH + 2)).drop (W3C_KEY_LENGTH + 2)))) ∧
    (∀ (headers_map : Nat → Option span_context) (key : Nat)
       (buckets : List (List header_entry)),
      extract_context_from_req_headers_dispatch true headers_map key buckets =
        headers_map key ∧
      extract_context_from_req_headers_dispatch false headers_map key buckets =
        extract_context_from_req_headers buckets) := by
  refine ⟨?_, ?_, ?_⟩
  · intro buckets sc
    constructor
    · intro h
      exact scan_header_entries_some _ sc h
    · intro h
      exact scan_header_entries_none _ h
  · intro len buf sc
    simp only [uprobe_textproto_readContinuedLineSlice]
    by_cases h1 : len ≥ W3C_KEY_LENGTH + W3C_VAL_LENGTH + 2
    · by_cases h2 : bpf_memicmp (buf.take (W3C_KEY_LENGTH + W3C_VAL_LENGTH + 2))
          traceparent_colon (W3C_KEY_LENGTH + 2) = 0
      · simp [h1, h2, eq_comm]
      · simp [h1, h2]
    · simp [h1]
  · intro headers_map key buckets
    exact ⟨rfl, rfl⟩

/-- Witness for the amended C5: the uppercase map entry is skipped by the
bucket scan while the lowercase raw line is accepted by the textproto
path and decoded to the original context. -/
theorem extract_context_from_req_headers_amended_witness :
    extract_context_from_req_headers [[entry_upper]] = none ∧
    uprobe_textproto_readContinuedLineSlice 68
      (traceparent_colon ++ span_context_to_w3c_string sc_ex) = some sc_ex := by
  constructor
  · exact (extract_context_from_req_headers_amended.1 [[entry_upper]] sc_ex).2 (by decide)
  · exact (extract_context_from_req_headers_amended.2.1 68
      (traceparent_colon ++ span_context_to_w3c_string sc_ex) sc_ex).mpr
      ⟨by decide, by decide, by decide⟩

/-- Walking k steps from the successor of data is walking k+1 steps from data. -/
theorem chainAt_shift :
    ∀ (mem : Nat → Nat) (data k : Nat),
      chainAt mem (chainStep mem data) k = chainAt mem data (k + 1) := by
  intro mem data k
  induction k with
  | zero => rfl
  | succ k ih =>
    show chainStep mem (chainAt mem (chainStep mem data) k) = chainAt mem data (k + 2)
    rw [ih]
    rfl

/-- The fueled walk finds exactly the first in-map address of the chain
within the fuel bound, skipping no NULL-terminated prefix. -/
theorem go_context_walk_spec :
    ∀ (fuel : Nat) (mem : Nat → Nat) (inMap : Nat → Bool) (data a : Nat),
      (go_context_walk mem inMap fuel data = some a ↔
        ∃ k, k < fuel ∧ (∀ j, j ≤ k → chainAt mem data j ≠ 0) ∧
          (∀ j, j < k → inMap (chainAt mem data j) = false) ∧
          chainAt mem data k = a ∧ inMap a = true) := by
  intro fuel mem inMap
  induction fuel with
  | zero =>
    intro data a
    constructor
    · intro h
      cases h
    · rintro ⟨k, hk, _⟩
      exact absurd hk (Nat.not_lt_zero k)
  | succ n ih =>
    intro data a
    by_cases h0 : data = 0
    · subst h0
      rw [go_context_walk, if_pos rfl]
      constructor
      · intro h
        cases h
      · rintro ⟨k, _, hnz, _, _, _⟩
        exact absurd rfl (hnz 0 (Nat.zero_le k))
    · by_cases hm : inMap data = true
      · rw [go_context_walk, if_neg h0, if_pos hm]
        constructor
        · intro h
          injection h with h
          subst h
          refine ⟨0, Nat.succ_pos n, ?_, ?_, rfl, hm⟩
          · intro j hj
            have : j = 0 := Nat.le_zero.mp hj
            subst this
            exact h0
          · intro j hj
            exact absurd hj (Nat.not_lt_zero j)
        · rintro ⟨k, hk, hnz, hnm, hca, hin⟩
          cases k with
          | zero =>
            rw [show chainAt mem data 0 = data from rfl] at hca
            rw [hca]
          | succ k =>
            have := hnm 0 (Nat.succ_pos k)
            rw [show chainAt mem data 0 = data from rfl] at this
            rw [hm] at this
            cases this
      · rw [go_context_walk, if_neg h0, if_neg hm]
        rw [ih (chainStep mem data) a]
        constructor
        · rintro ⟨k, hk, hnz, hnm, hca, hin⟩
          refine ⟨k + 1, Nat.succ_lt_succ hk, ?_, ?_, ?_, hin⟩
          · intro j hj
            cases j with
            | zero => exact h0
            | succ j =>
              have := hnz j (Nat.le_of_succ_le_succ hj)
              rwa [chainAt_shift] at this
          · intro j hj
            cases j with
            | zero =>
              show inMap data = false
              exact Bool.not_eq_true _ ▸ (by simpa using hm)
            | succ j =>
              have := hnm j (Nat.lt_of_succ_lt_succ hj)
              rwa [chainAt_shift] at this
          · rw [← chainAt_shift]
            exact hca
        · rintro ⟨k, hk, hnz, hnm, hca, hin⟩
          cases k with
          | zero =>
            rw [show chainAt mem data 0 = data from rfl] at hca
            rw [hca] at hm
            rw [hin] at hm
            cases hm rfl
          | succ k =>
            refine ⟨k, Nat.lt_of_succ_lt_succ hk, ?_, ?_, ?_, hin⟩
            · intro j hj
              rw [chainAt_shift]
              exact hnz (j + 1) (Nat.succ_le_succ hj)
            · intro j hj
              rw [chainAt_shift]
              exact hnm (j + 1) (Nat.succ_lt_succ hj)
            · rw [chainAt_shift]
              exact hca

/-- C7: get_parent_go_context walks the parent chain for at most
MAX_DISTANCE = 100 steps and returns exactly the first visited address
present in the map, with none of the earlier chain entries NULL; in every
other situation (NULL reached or bound exhausted without a hit) it
returns none, the not-found sentinel. -/
theorem get_parent_go_context_bounded_walk :
    MAX_DISTANCE = 100 ∧
    ∀ (mem : Nat → Nat) (inMap : Nat → Bool) (data a : Nat),
      (get_parent_go_context mem inMap data = some a ↔
        ∃ k, k < 100 ∧ (∀ j, j ≤ k → chainAt mem data j ≠ 0) ∧
          (∀ j, j < k → inMap (chainAt mem data j) = false) ∧
          chainAt mem data k = a ∧ inMap a = true) := by
  refine ⟨rfl, ?_⟩
  intro mem inMap data a
  exact go_context_walk_spec MAX_DISTANCE mem inMap data a

/-- Witness for C7: in a memory where address 100 chains to the tracked
address 200, the walk returns 200, found at step one. -/
theorem get_parent_go_context_bounded_walk_witness :
    get_parent_go_context walk_mem walk_inMap 100 = some 200 := by
  refine (get_parent_go_context_bounded_walk.2 walk_mem walk_inMap 100 200).mpr ?_
  refine ⟨1, by norm_num, ?_, ?_, by decide, by decide⟩
  · intro j hj
    interval_cases j <;> decide
  · intro j hj
    interval_cases j
    decide
